import Mathlib

/-!
Verification of the failover execution engine
(src/agents/failover_agent.py and src/tools/failover_tools.py).

The Python module is embedded shallowly:
  - Python dicts become association lists (`List (String × _)`) with the
    insertion-order update semantics of CPython dicts (`dinsert`).
  - The Apollo router client is an oracle (`ClientBehavior`): health of each
    backend, the configuration returned by the n-th read, and the boolean
    result of the n-th write of one invocation.
  - The module-level mutable state (`_failover_history`, `_rollback_configs`)
    is threaded explicitly through `EngineState`.
  - Wall-clock time is an integer parameter `now`; `time.time()` inside one
    invocation is approximated by that single value.
  - A call returns a `CallResult`: the outcome (`Except String FailoverResult`,
    where the `.error` case is an uncaught Python exception such as the
    KeyError raised by `new_config["routing"]["backends"]`), the state after
    the call, and the trace of `update_backend_weights` calls issued.
-/

namespace Failover

/-- Health probe outcome of `ApolloRouterClient.check_backend_health`:
the `status` field is `"healthy"`, `"unhealthy"` or `"unreachable"`. -/
inductive HealthStatus
  | healthy
  | unhealthy
  | unreachable
deriving DecidableEq, Repr

def healthStatusStr : HealthStatus → String
  | .healthy => "healthy"
  | .unhealthy => "unhealthy"
  | .unreachable => "unreachable"

/-- One entry of a `routing.backends` list: `url` is always present (the code
indexes `backend["url"]` directly), `weight` may be absent (the code reads it
with `backend.get("weight", 0)`). -/
structure BackendEntry where
  url : String
  weight : Option Int
deriving DecidableEq, Repr

/-- A configuration dict as returned by
`ApolloRouterClient.get_current_configuration`: either it has a
`routing.backends` list (`routingBackends = some _`) or it lacks one
(`routingBackends = none`), as does the error-shaped object
`{"error": str(e)}` returned on transport failure, which also carries
`errorMsg = some _`. -/
structure Config where
  routingBackends : Option (List BackendEntry)
  errorMsg : Option String
deriving DecidableEq, Repr

/-- The error-shaped configuration object `{"error": msg}` returned by
`get_current_configuration` when the HTTP request fails. -/
def errorConfig (msg : String) : Config :=
  { routingBackends := none, errorMsg := some msg }

/-- A Python dict mapping backend URLs to integer weights, in insertion
order. -/
abbrev WeightDistribution := List (String × Int)

/-- Python dict assignment `d[k] = v`: an existing key keeps its position and
gets the new value, a new key is appended at the end. -/
def dinsert {β : Type} (d : List (String × β)) (k : String) (v : β) :
    List (String × β) :=
  match d with
  | [] => [(k, v)]
  | (k', v') :: rest =>
      if k' = k then (k, v) :: rest else (k', v') :: dinsert rest k v

/-- Python dict lookup returning `none` when the key is absent. -/
def dlookup {β : Type} (d : List (String × β)) (k : String) : Option β :=
  match d with
  | [] => none
  | (k', v) :: rest => if k' = k then some v else dlookup rest k

/-- Python `==` on two dicts: same keys, and the same value at every key.
Faithful for association lists without duplicate keys, which is all a CPython
dict can be. -/
def dictEq (d1 d2 : WeightDistribution) : Bool :=
  d1.all (fun kv => dlookup d2 kv.1 == some kv.2) &&
  d2.all (fun kv => dlookup d1 kv.1 == some kv.2)

/-- The dict comprehension `{backend["url"]: backend.get("weight", 0) for
backend in backends}`. -/
def weightsOfBackends (backends : List BackendEntry) : WeightDistribution :=
  backends.foldl (fun d b => dinsert d b.url (b.weight.getD 0)) []

/-- `extract_weights_from_config`: reads `config.get("routing", {}).get("backends", [])`
and builds the url-to-weight dict. Total: a config without a
`routing.backends` list yields the empty dict. -/
def extract_weights_from_config (config : Config) : WeightDistribution :=
  weightsOfBackends (config.routingBackends.getD [])

/-- `verify_configuration_match`: builds the applied dict from the backend
list and compares it with the requested dict using Python `==`. -/
def verify_configuration_match (requested : WeightDistribution)
    (applied : List BackendEntry) : Bool :=
  dictEq requested (weightsOfBackends applied)

/-- The backend display name used by `format_weight_distribution`:
`url.split("//")[-1].split(".")[0]`. -/
def backendDisplayName (url : String) : String :=
  (((url.splitOn "//").getLastD "").splitOn ".").headD ""

/-- `format_weight_distribution`: renders `name: w%` parts joined by `, `. -/
def format_weight_distribution (weights : WeightDistribution) : String :=
  String.intercalate ", "
    (weights.map (fun kv =>
      backendDisplayName kv.1 ++ ": " ++ toString kv.2 ++ "%"))

/-- `verify_schema_compatibility`: the placeholder in the source always
returns `True`. -/
def verify_schema_compatibility (_service : String) (_backend_url : String) :
    Bool :=
  true

/-- The module-level mutable state: `_failover_history` (service to timestamp
of last successful failover) and `_rollback_configs` (service to stored
pre-change configuration). -/
structure EngineState where
  failover_history : List (String × Int)
  rollback_configs : List (String × Config)
deriving DecidableEq, Repr

/-- The empty initial state of the module. -/
def EngineState.initial : EngineState :=
  { failover_history := [], rollback_configs := [] }

/-- `get_last_failover_time`: `_failover_history.get(service, 0)`. -/
def get_last_failover_time (st : EngineState) (service : String) : Int :=
  (dlookup st.failover_history service).getD 0

/-- The environment of the module: the backend registry
(`get_service_backends` from config.applications) and the configured
rate-limit window `FAILOVER_RATE_LIMIT_SECONDS` (default 300). -/
structure Env where
  get_service_backends : String → List String
  rate_limit_seconds : Int

/-- One possible behaviour of the Apollo router client during a single
invocation: the health of each backend, the configuration returned by the
n-th `get_current_configuration` call (0-based), and the outcome of the n-th
`update_backend_weights` call. -/
structure ClientBehavior where
  check_backend_health : String → HealthStatus
  get_configuration : Nat → Config
  update_ok : Nat → Bool

/-- The dict returned by `execute_failover` / `rollback_failover`. Each
optional field models whether the corresponding key is present in the
returned Python dict. -/
structure FailoverResult where
  success : Bool
  error : Option String := none
  service : Option String := none
  previous_config : Option WeightDistribution := none
  new_config : Option WeightDistribution := none
  message : Option String := none
  configuration : Option WeightDistribution := none
deriving DecidableEq, Repr

/-- A failure dict `{"success": False, "error": msg}`: every abort path of
both functions returns exactly this shape, with no other key. -/
def failResult (msg : String) : FailoverResult :=
  { success := false, error := some msg }

deriving instance DecidableEq for Except

/-- Result of one invocation: the returned dict or an uncaught Python
exception, the module state after the call, and the ordered trace of
`update_backend_weights` calls issued (service, weights). -/
structure CallResult where
  outcome : Except String FailoverResult
  state : EngineState
  writes : List (String × WeightDistribution)
deriving DecidableEq, Repr

/-- Step 1 loop of `execute_failover`: the first key of `backend_weights`
that is not in `valid_backends`, in insertion order. -/
def firstInvalidBackend (valid : List String) (w : WeightDistribution) :
    Option String :=
  match w with
  | [] => none
  | (url, _) :: rest =>
      if url ∈ valid then firstInvalidBackend valid rest else some url

/-- Step 3 loop of `execute_failover`: the first backend with weight > 0
whose health probe is not `"healthy"`, with its reported status. -/
def firstUnhealthy (health : String → HealthStatus)
    (w : WeightDistribution) : Option (String × HealthStatus) :=
  match w with
  | [] => none
  | (url, wt) :: rest =>
      if wt > 0 then
        match health url with
        | .healthy => firstUnhealthy health rest
        | s => some (url, s)
      else firstUnhealthy health rest

/-- Step 4 loop of `execute_failover`: the first backend with weight > 0 that
fails `verify_schema_compatibility`. -/
def firstIncompatible (service : String) (w : WeightDistribution) :
    Option String :=
  match w with
  | [] => none
  | (url, wt) :: rest =>
      if wt > 0 ∧ verify_schema_compatibility service url = false then
        some url
      else firstIncompatible service rest

/-- `execute_failover(service, backend_weights)`: the nine-step pipeline of
src/agents/failover_agent.py lines 75-177, with the client calls resolved
against `client` and `time.time()` approximated by `now`. The `.error`
outcome is the KeyError raised at step 8 when the re-read configuration has
no `routing.backends`. -/
def execute_failover (env : Env) (client : ClientBehavior) (now : Int)
    (st : EngineState) (service : String)
    (backend_weights : WeightDistribution) : CallResult :=
  match firstInvalidBackend (env.get_service_backends service)
      backend_weights with
  | some url =>
      { outcome := .ok (failResult ("Invalid backend \x27" ++ url
          ++ "\x27 for service \x27" ++ service ++ "\x27. Valid backends: "
          ++ String.intercalate ", " (env.get_service_backends service))),
        state := st, writes := [] }
  | none =>
    let total_weight : Int := (backend_weights.map Prod.snd).sum
    if total_weight ≠ 100 then
      { outcome := .ok (failResult ("Weights must sum to 100%, got "
          ++ toString total_weight ++ "%")),
        state := st, writes := [] }
    else
      match firstUnhealthy client.check_backend_health backend_weights with
      | some (url, s) =>
          { outcome := .ok (failResult ("Backend \x27" ++ url ++ "\x27 is "
              ++ healthStatusStr s
              ++ ". Cannot route traffic to unhealthy backend.")),
            state := st, writes := [] }
      | none =>
        match firstIncompatible service backend_weights with
        | some url =>
            { outcome := .ok (failResult ("Backend \x27" ++ url
                ++ "\x27 has incompatible GraphQL schema")),
              state := st, writes := [] }
        | none =>
          let last_failover := get_last_failover_time st service
          if last_failover ≠ 0 ∧
              now - last_failover < env.rate_limit_seconds then
            { outcome := .ok (failResult ("Rate limit: Wait "
                ++ toString (env.rate_limit_seconds - (now - last_failover))
                ++ "s before next failover")),
              state := st, writes := [] }
          else
            let current_config := client.get_configuration 0
            let st1 : EngineState :=
              { st with rollback_configs :=
                  dinsert st.rollback_configs service current_config }
            if client.update_ok 0 = false then
              { outcome := .ok
                  (failResult "Failed to update Apollo Router configuration"),
                state := st1, writes := [(service, backend_weights)] }
            else
              match (client.get_configuration 1).routingBackends with
              | none =>
                  { outcome := .error "KeyError",
                    state := st1, writes := [(service, backend_weights)] }
              | some applied =>
                if verify_configuration_match backend_weights applied then
                  let ok_result : FailoverResult :=
                    { success := true,
                      service := some service,
                      previous_config :=
                        some (extract_weights_from_config current_config),
                      new_config := some backend_weights,
                      message := some ("Successfully failed over \x27"
                        ++ service ++ "\x27 traffic. New distribution: "
                        ++ format_weight_distribution backend_weights) }
                  let st2 : EngineState :=
                    { st1 with failover_history :=
                        dinsert st1.failover_history service now }
                  { outcome := .ok ok_result,
                    state := st2,
                    writes := [(service, backend_weights)] }
                else
                  { outcome := .ok (failResult
                      "Configuration verification failed. Automatic rollback executed."),
                    state := st1,
                    writes := [(service, backend_weights),
                      (service, extract_weights_from_config current_config)] }

/-- `rollback_failover(service)`: src/agents/failover_agent.py lines 179-211.
It reads only `_rollback_configs` and the write oracle; it consults neither
the backend registry, nor health probes, nor `_failover_history`. -/
def rollback_failover (client : ClientBehavior) (st : EngineState)
    (service : String) : CallResult :=
  match dlookup st.rollback_configs service with
  | none =>
      { outcome := .ok (failResult
          ("No rollback configuration available for " ++ service)),
        state := st, writes := [] }
  | some rollback_config =>
    let rollback_weights := extract_weights_from_config rollback_config
    if client.update_ok 0 = false then
      { outcome := .ok (failResult "Failed to execute rollback"),
        state := st, writes := [(service, rollback_weights)] }
    else
      let ok_result : FailoverResult :=
        { success := true,
          service := some service,
          message := some ("Successfully rolled back " ++ service
            ++ " to previous configuration"),
          configuration := some rollback_weights }
      { outcome := .ok ok_result,
        state := st, writes := [(service, rollback_weights)] }

/-! Concrete fixtures used to evaluate the theorems on explicit inputs:
a registry with two backends for every service, the matching healthy client
behaviours, and a few stored states. -/

/-- A registry mapping every service to two backends, with the default 300s
rate-limit window. -/
def envAB : Env :=
  ⟨fun _ => ["https://a.example.com", "https://b.example.com"], 300⟩

/-- A configuration with all traffic on backend a. -/
def cfgA100 : Config :=
  ⟨some [⟨"https://a.example.com", some 100⟩,
         ⟨"https://b.example.com", some 0⟩], none⟩

/-- A configuration with a 70/30 split. -/
def cfgA70 : Config :=
  ⟨some [⟨"https://a.example.com", some 70⟩,
         ⟨"https://b.example.com", some 30⟩], none⟩

/-- The target distribution 70/30. -/
def wA70 : WeightDistribution :=
  [("https://a.example.com", 70), ("https://b.example.com", 30)]

/-- A healthy client: the pre-change snapshot read returns `cfgA100`, the
post-write read returns `cfgA70`, every write is accepted. -/
def clientGood : ClientBehavior :=
  ⟨fun _ => .healthy, fun n => if n = 0 then cfgA100 else cfgA70,
   fun _ => true⟩

/-- A client whose post-write re-read still shows the old configuration:
the write is accepted but verification will mismatch. -/
def clientMismatch : ClientBehavior :=
  ⟨fun _ => .healthy, fun _ => cfgA100, fun _ => true⟩

/-- A client whose post-write configuration read fails with a transport
error, yielding the error-shaped object. -/
def clientErrRead : ClientBehavior :=
  ⟨fun _ => .healthy,
   fun n => if n = 0 then cfgA100 else errorConfig "connection reset",
   fun _ => true⟩

/-- A client that rejects every write. -/
def clientNoWrite : ClientBehavior :=
  ⟨fun _ => .healthy, fun n => if n = 0 then cfgA100 else cfgA70,
   fun _ => false⟩

/-- A state recording a successful failover for service `orders` at time
1000. -/
def stHist : EngineState := ⟨[("orders", 1000)], []⟩

/-- A state holding a rollback snapshot `cfgA100` for service `orders`. -/
def stSnap : EngineState := ⟨[], [("orders", cfgA100)]⟩

/-- A state whose stored rollback snapshot for `orders` is the error-shaped
object from a failed configuration read. -/
def stBadSnap : EngineState := ⟨[], [("orders", errorConfig "boom")]⟩

/-! Helper lemmas: reducing the step-1/3/4 loops under pointwise hypotheses,
and the dict update/lookup interaction. -/

theorem firstInvalidBackend_eq_none {valid : List String}
    {w : WeightDistribution} (h : ∀ p ∈ w, p.1 ∈ valid) :
    firstInvalidBackend valid w = none := by
  induction w with
  | nil => rfl
  | cons p rest ih =>
      obtain ⟨url, wt⟩ := p
      have h1 : url ∈ valid := h (url, wt) (List.mem_cons_self _ _)
      have h2 : ∀ q ∈ rest, q.1 ∈ valid :=
        fun q hq => h q (List.mem_cons_of_mem _ hq)
      simp [firstInvalidBackend, h1, ih h2]

theorem firstUnhealthy_eq_none {health : String → HealthStatus}
    {w : WeightDistribution}
    (h : ∀ p ∈ w, 0 < p.2 → health p.1 = .healthy) :
    firstUnhealthy health w = none := by
  induction w with
  | nil => rfl
  | cons p rest ih =>
      obtain ⟨url, wt⟩ := p
      have h2 : ∀ q ∈ rest, 0 < q.2 → health q.1 = .healthy :=
        fun q hq => h q (List.mem_cons_of_mem _ hq)
      by_cases hw : 0 < wt
      · have h1 : health url = .healthy := h (url, wt) (List.mem_cons_self _ _) hw
        simp [firstUnhealthy, hw, h1, ih h2]
      · simp [firstUnhealthy, hw, ih h2]

theorem firstIncompatible_eq_none (service : String) (w : WeightDistribution) :
    firstIncompatible service w = none := by
  induction w with
  | nil => rfl
  | cons p rest ih =>
      obtain ⟨url, wt⟩ := p
      simp [firstIncompatible, verify_schema_compatibility, ih]

theorem dlookup_dinsert {β : Type} (d : List (String × β)) (k : String)
    (v : β) : dlookup (dinsert d k v) k = some v := by
  induction d with
  | nil => simp [dinsert, dlookup]
  | cons p rest ih =>
      obtain ⟨k', v'⟩ := p
      by_cases hk : k' = k
      · subst hk; simp [dinsert, dlookup]
      · simp [dinsert, dlookup, hk, ih]

/-! Characterization lemmas: one per exit path of `execute_failover`, under
the branch conditions in operational form. -/

theorem execute_failover_success_eq
    (env : Env) (client : ClientBehavior) (now : Int) (st : EngineState)
    (service : String) (w : WeightDistribution) (applied : List BackendEntry)
    (hvalid : firstInvalidBackend (env.get_service_backends service) w = none)
    (hsum : (w.map Prod.snd).sum = 100)
    (hhealth : firstUnhealthy client.check_backend_health w = none)
    (hrate : ¬(get_last_failover_time st service ≠ 0 ∧
        now - get_last_failover_time st service < env.rate_limit_seconds))
    (hupd : client.update_ok 0 = true)
    (happ : (client.get_configuration 1).routingBackends = some applied)
    (hver : verify_configuration_match w applied = true) :
    execute_failover env client now st service w =
      ⟨.ok ⟨true, none, some service,
          some (extract_weights_from_config (client.get_configuration 0)),
          some w,
          some ("Successfully failed over \x27" ++ service
            ++ "\x27 traffic. New distribution: "
            ++ format_weight_distribution w), none⟩,
        ⟨dinsert st.failover_history service now,
         dinsert st.rollback_configs service (client.get_configuration 0)⟩,
        [(service, w)]⟩ := by
  simp only [execute_failover, hvalid, hsum, firstIncompatible_eq_none,
    hhealth, hupd, happ, hver]
  simp [hrate]

theorem execute_failover_invalid_eq
    (env : Env) (client : ClientBehavior) (now : Int) (st : EngineState)
    (service : String) (w : WeightDistribution) (url : String)
    (hbad : firstInvalidBackend (env.get_service_backends service) w
      = some url) :
    execute_failover env client now st service w =
      ⟨.ok (failResult ("Invalid backend \x27" ++ url
          ++ "\x27 for service \x27" ++ service ++ "\x27. Valid backends: "
          ++ String.intercalate ", " (env.get_service_backends service))),
        st, []⟩ := by
  simp only [execute_failover, hbad]

theorem execute_failover_badsum_eq
    (env : Env) (client : ClientBehavior) (now : Int) (st : EngineState)
    (service : String) (w : WeightDistribution)
    (hvalid : firstInvalidBackend (env.get_service_backends service) w = none)
    (hsum : (w.map Prod.snd).sum ≠ 100) :
    execute_failover env client now st service w =
      ⟨.ok (failResult ("Weights must sum to 100%, got "
          ++ toString ((w.map Prod.snd).sum) ++ "%")), st, []⟩ := by
  simp only [execute_failover, hvalid]
  simp [hsum]

theorem execute_failover_ratelimited_eq
    (env : Env) (client : ClientBehavior) (now : Int) (st : EngineState)
    (service : String) (w : WeightDistribution)
    (hvalid : firstInvalidBackend (env.get_service_backends service) w = none)
    (hsum : (w.map Prod.snd).sum = 100)
    (hhealth : firstUnhealthy client.check_backend_health w = none)
    (hlast : get_last_failover_time st service ≠ 0)
    (hwin : now - get_last_failover_time st service < env.rate_limit_seconds) :
    execute_failover env client now st service w =
      ⟨.ok (failResult ("Rate limit: Wait "
          ++ toString (env.rate_limit_seconds
              - (now - get_last_failover_time st service))
          ++ "s before next failover")), st, []⟩ := by
  simp only [execute_failover, hvalid, hsum, firstIncompatible_eq_none, hhealth]
  simp [hlast, hwin]

theorem execute_failover_applyfail_eq
    (env : Env) (client : ClientBehavior) (now : Int) (st : EngineState)
    (service : String) (w : WeightDistribution)
    (hvalid : firstInvalidBackend (env.get_service_backends service) w = none)
    (hsum : (w.map Prod.snd).sum = 100)
    (hhealth : firstUnhealthy client.check_backend_health w = none)
    (hrate : ¬(get_last_failover_time st service ≠ 0 ∧
        now - get_last_failover_time st service < env.rate_limit_seconds))
    (hupd : client.update_ok 0 = false) :
    execute_failover env client now st service w =
      ⟨.ok (failResult "Failed to update Apollo Router configuration"),
        ⟨st.failover_history,
         dinsert st.rollback_configs service (client.get_configuration 0)⟩,
        [(service, w)]⟩ := by
  simp only [execute_failover, hvalid, hsum, firstIncompatible_eq_none,
    hhealth, hupd]
  simp [hrate]

theorem execute_failover_keyerror_eq
    (env : Env) (client : ClientBehavior) (now : Int) (st : EngineState)
    (service : String) (w : WeightDistribution)
    (hvalid : firstInvalidBackend (env.get_service_backends service) w = none)
    (hsum : (w.map Prod.snd).sum = 100)
    (hhealth : firstUnhealthy client.check_backend_health w = none)
    (hrate : ¬(get_last_failover_time st service ≠ 0 ∧
        now - get_last_failover_time st service < env.rate_limit_seconds))
    (hupd : client.update_ok 0 = true)
    (happ : (client.get_configuration 1).routingBackends = none) :
    execute_failover env client now st service w =
      ⟨.error "KeyError",
        ⟨st.failover_history,
         dinsert st.rollback_configs service (client.get_configuration 0)⟩,
        [(service, w)]⟩ := by
  simp only [execute_failover, hvalid, hsum, firstIncompatible_eq_none,
    hhealth, hupd, happ]
  simp [hrate]

theorem execute_failover_verifyfail_eq
    (env : Env) (client : ClientBehavior) (now : Int) (st : EngineState)
    (service : String) (w : WeightDistribution) (applied : List BackendEntry)
    (hvalid : firstInvalidBackend (env.get_service_backends service) w = none)
    (hsum : (w.map Prod.snd).sum = 100)
    (hhealth : firstUnhealthy client.check_backend_health w = none)
    (hrate : ¬(get_last_failover_time st service ≠ 0 ∧
        now - get_last_failover_time st service < env.rate_limit_seconds))
    (hupd : client.update_ok 0 = true)
    (happ : (client.get_configuration 1).routingBackends = some applied)
    (hver : verify_configuration_match w applied = false) :
    execute_failover env client now st service w =
      ⟨.ok (failResult
          "Configuration verification failed. Automatic rollback executed."),
        ⟨st.failover_history,
         dinsert st.rollback_configs service (client.get_configuration 0)⟩,
        [(service, w),
         (service, extract_weights_from_config (client.get_configuration 0))]⟩
      := by
  simp only [execute_failover, hvalid, hsum, firstIncompatible_eq_none,
    hhealth, hupd, happ, hver]
  simp [hrate]

/-! Characterization lemmas for the three exit paths of
`rollback_failover`. -/

theorem rollback_failover_none_eq (client : ClientBehavior)
    (st : EngineState) (service : String)
    (h : dlookup st.rollback_configs service = none) :
    rollback_failover client st service =
      ⟨.ok (failResult ("No rollback configuration available for "
          ++ service)), st, []⟩ := by
  simp only [rollback_failover, h]

theorem rollback_failover_applyfail_eq (client : ClientBehavior)
    (st : EngineState) (service : String) (cfg : Config)
    (h : dlookup st.rollback_configs service = some cfg)
    (hupd : client.update_ok 0 = false) :
    rollback_failover client st service =
      ⟨.ok (failResult "Failed to execute rollback"), st,
        [(service, extract_weights_from_config cfg)]⟩ := by
  simp only [rollback_failover, h, hupd]
  simp

theorem rollback_failover_success_eq (client : ClientBehavior)
    (st : EngineState) (service : String) (cfg : Config)
    (h : dlookup st.rollback_configs service = some cfg)
    (hupd : client.update_ok 0 = true) :
    rollback_failover client st service =
      ⟨.ok ⟨true, none, some service, none, none,
          some ("Successfully rolled back " ++ service
            ++ " to previous configuration"),
          some (extract_weights_from_config cfg)⟩, st,
        [(service, extract_weights_from_config cfg)]⟩ := by
  simp only [rollback_failover, h, hupd]
  simp

/-- Translating the claim-level cooldown condition (no prior success, or the
window has elapsed) into the negation of the rate-limit guard of step 5. -/
theorem rate_ok_of_cooldown {st : EngineState} {service : String} {now : Int}
    {env : Env}
    (h : get_last_failover_time st service = 0 ∨
      env.rate_limit_seconds ≤ now - get_last_failover_time st service) :
    ¬(get_last_failover_time st service ≠ 0 ∧
      now - get_last_failover_time st service < env.rate_limit_seconds) := by
  rcases h with h | h
  · exact fun hc => hc.1 h
  · exact fun hc => absurd hc.2 (not_lt.2 h)

/-- C1: when every key of targetWeights is a registered backend of the
service, the weights sum to exactly 100, every backend with weight > 0
probes healthy, no prior successful failover lies within the cooldown
window, the router accepts the write, and the re-read configuration matches
targetWeights, `execute_failover` returns a success result whose new_config
equals targetWeights and whose previous_config equals the weight
distribution extracted from the pre-change snapshot, and it sets the last
failover timestamp of the service to the current time. -/
theorem C1_execute_failover_success
    (env : Env) (client : ClientBehavior) (now : Int) (st : EngineState)
    (service : String) (targetWeights : WeightDistribution)
    (applied : List BackendEntry)
    (hkeys : ∀ p ∈ targetWeights, p.1 ∈ env.get_service_backends service)
    (hsum : (targetWeights.map Prod.snd).sum = 100)
    (hhealth : ∀ p ∈ targetWeights, 0 < p.2 →
      client.check_backend_health p.1 = .healthy)
    (hcooldown : get_last_failover_time st service = 0 ∨
      env.rate_limit_seconds ≤ now - get_last_failover_time st service)
    (haccept : client.update_ok 0 = true)
    (hreread : (client.get_configuration 1).routingBackends = some applied)
    (hmatch : verify_configuration_match targetWeights applied = true) :
    (execute_failover env client now st service targetWeights).outcome =
      .ok ⟨true, none, some service,
        some (extract_weights_from_config (client.get_configuration 0)),
        some targetWeights,
        some ("Successfully failed over \x27" ++ service
          ++ "\x27 traffic. New distribution: "
          ++ format_weight_distribution targetWeights), none⟩ ∧
    get_last_failover_time
      (execute_failover env client now st service targetWeights).state
      service = now := by
  rw [execute_failover_success_eq env client now st service targetWeights
    applied (firstInvalidBackend_eq_none hkeys) hsum
    (firstUnhealthy_eq_none hhealth) (rate_ok_of_cooldown hcooldown)
    haccept hreread hmatch]
  exact ⟨rfl, by simp [get_last_failover_time, dlookup_dinsert]⟩

/-- C1 witness: the end-to-end example at concrete inputs: registry with two
backends, both healthy, 70/30 target, snapshot `cfgA100`, re-read `cfgA70`
matching the target. -/
theorem C1_execute_failover_success_witness :
    (execute_failover envAB clientGood 1000 EngineState.initial "orders"
        wA70).outcome =
      .ok ⟨true, none, some "orders",
        some (extract_weights_from_config (clientGood.get_configuration 0)),
        some wA70,
        some ("Successfully failed over \x27" ++ "orders"
          ++ "\x27 traffic. New distribution: "
          ++ format_weight_distribution wA70), none⟩ ∧
    get_last_failover_time
      (execute_failover envAB clientGood 1000 EngineState.initial "orders"
        wA70).state "orders" = 1000 :=
  C1_execute_failover_success envAB clientGood 1000 EngineState.initial
    "orders" wA70 (cfgA70.routingBackends.getD [])
    (by decide) (by decide) (by decide) (by decide) (by decide)
    (by decide) (by decide)

/-- C2: when `execute_failover` reaches the post-write verification step and
the re-read configuration does not match targetWeights, the writes trace
holds exactly one additional `update_backend_weights` call carrying the
weights extracted from the step-6 snapshot after the initial apply call,
the call returns the VerificationFailed failure, and the last-failover
timestamp store is untouched. -/
theorem C2_verification_mismatch_rollback
    (env : Env) (client : ClientBehavior) (now : Int) (st : EngineState)
    (service : String) (targetWeights : WeightDistribution)
    (applied : List BackendEntry)
    (hkeys : ∀ p ∈ targetWeights, p.1 ∈ env.get_service_backends service)
    (hsum : (targetWeights.map Prod.snd).sum = 100)
    (hhealth : ∀ p ∈ targetWeights, 0 < p.2 →
      client.check_backend_health p.1 = .healthy)
    (hcooldown : get_last_failover_time st service = 0 ∨
      env.rate_limit_seconds ≤ now - get_last_failover_time st service)
    (haccept : client.update_ok 0 = true)
    (hreread : (client.get_configuration 1).routingBackends = some applied)
    (hmismatch : verify_configuration_match targetWeights applied = false) :
    (execute_failover env client now st service targetWeights).writes =
      [(service, targetWeights),
       (service, extract_weights_from_config (client.get_configuration 0))] ∧
    (execute_failover env client now st service targetWeights).outcome =
      .ok (failResult
        "Configuration verification failed. Automatic rollback executed.") ∧
    ((execute_failover env client now st service targetWeights).state).failover_history = st.failover_history := by
  rw [execute_failover_verifyfail_eq env client now st service targetWeights
    applied (firstInvalidBackend_eq_none hkeys) hsum
    (firstUnhealthy_eq_none hhealth) (rate_ok_of_cooldown hcooldown)
    haccept hreread hmismatch]
  exact ⟨rfl, rfl, rfl⟩

/-- C2 witness: concrete mismatch run: the write is accepted but the re-read
still shows `cfgA100`, so the rollback write re-issues the weights of the
snapshot. -/
theorem C2_verification_mismatch_rollback_witness :
    (execute_failover envAB clientMismatch 1000 EngineState.initial "orders"
        wA70).writes =
      [("orders", wA70),
       ("orders",
        extract_weights_from_config (clientMismatch.get_configuration 0))] ∧
    (execute_failover envAB clientMismatch 1000 EngineState.initial "orders"
        wA70).outcome =
      .ok (failResult
        "Configuration verification failed. Automatic rollback executed.") ∧
    (execute_failover envAB clientMismatch 1000 EngineState.initial "orders"
        wA70).state.failover_history =
      EngineState.initial.failover_history :=
  C2_verification_mismatch_rollback envAB clientMismatch 1000
    EngineState.initial "orders" wA70 (cfgA100.routingBackends.getD [])
    (by decide) (by decide) (by decide) (by decide) (by decide)
    (by decide) (by decide)

/-- C3: the code contradicts the never-throws claim. At a behaviour allowed
by the client interface, where the post-write configuration read fails and
returns the error-shaped object, `execute_failover` raises a KeyError at
the verification step (`new_config["routing"]["backends"]`) instead of
returning a structured failure result: the outcome is an uncaught
exception. -/
theorem C3_verification_keyerror :
    clientErrRead.get_configuration 1 = errorConfig "connection reset" ∧
    (execute_failover envAB clientErrRead 1000 EngineState.initial "orders"
        wA70).outcome = .error "KeyError" := by
  constructor
  · rfl
  · rfl

/-- C4: `rollback_failover` fails with NoRollbackAvailable when no rollback
configuration is stored for the service; otherwise it extracts the stored
weight distribution and issues the write, failing with ApplyFailed when the
write fails and returning the restored distribution on success; its result
is independent of the health oracle and of the failover-history store (it
re-runs no preflight check); and immediately after one successful
`execute_failover` it restores exactly the distribution extracted from the
pre-change snapshot. -/
theorem C4_rollback_failover_contract
    (client : ClientBehavior) (st : EngineState) (service : String) :
    (dlookup st.rollback_configs service = none →
      rollback_failover client st service =
        ⟨.ok (failResult ("No rollback configuration available for "
            ++ service)), st, []⟩) ∧
    (∀ cfg, dlookup st.rollback_configs service = some cfg →
      (client.update_ok 0 = false →
        rollback_failover client st service =
          ⟨.ok (failResult "Failed to execute rollback"), st,
            [(service, extract_weights_from_config cfg)]⟩) ∧
      (client.update_ok 0 = true →
        rollback_failover client st service =
          ⟨.ok ⟨true, none, some service, none, none,
              some ("Successfully rolled back " ++ service
                ++ " to previous configuration"),
              some (extract_weights_from_config cfg)⟩, st,
            [(service, extract_weights_from_config cfg)]⟩)) ∧
    (∀ (client2 : ClientBehavior) (hist2 : List (String × Int)),
      client2.update_ok = client.update_ok →
      (rollback_failover client2 ⟨hist2, st.rollback_configs⟩ service).outcome
        = (rollback_failover client st service).outcome ∧
      (rollback_failover client2 ⟨hist2, st.rollback_configs⟩ service).writes
        = (rollback_failover client st service).writes) ∧
    (∀ (envE : Env) (clientE : ClientBehavior) (now : Int)
        (w : WeightDistribution) (applied : List BackendEntry),
      firstInvalidBackend (envE.get_service_backends service) w = none →
      (w.map Prod.snd).sum = 100 →
      firstUnhealthy clientE.check_backend_health w = none →
      ¬(get_last_failover_time st service ≠ 0 ∧
          now - get_last_failover_time st service
            < envE.rate_limit_seconds) →
      clientE.update_ok 0 = true →
      (clientE.get_configuration 1).routingBackends = some applied →
      verify_configuration_match w applied = true →
      client.update_ok 0 = true →
      (rollback_failover client
          ((execute_failover envE clientE now st service w).state)
          service).outcome =
        .ok ⟨true, none, some service, none, none,
          some ("Successfully rolled back " ++ service
            ++ " to previous configuration"),
          some (extract_weights_from_config
            (clientE.get_configuration 0))⟩) := by
  refine ⟨?_, ?_, ?_, ?_⟩
  · exact rollback_failover_none_eq client st service
  · intro cfg h
    exact ⟨rollback_failover_applyfail_eq client st service cfg h,
      rollback_failover_success_eq client st service cfg h⟩
  · intro client2 hist2 hupd
    have hupd0 : client2.update_ok 0 = client.update_ok 0 :=
      congrFun hupd 0
    cases h : dlookup st.rollback_configs service with
    | none =>
        rw [rollback_failover_none_eq client st service h,
          rollback_failover_none_eq client2 ⟨hist2, st.rollback_configs⟩
            service h]
        exact ⟨rfl, rfl⟩
    | some cfg =>
        cases hu : client.update_ok 0 with
        | false =>
            rw [rollback_failover_applyfail_eq client st service cfg h hu,
              rollback_failover_applyfail_eq client2
                ⟨hist2, st.rollback_configs⟩ service cfg h
                (hupd0.trans hu)]
            exact ⟨rfl, rfl⟩
        | true =>
            rw [rollback_failover_success_eq client st service cfg h hu,
              rollback_failover_success_eq client2
                ⟨hist2, st.rollback_configs⟩ service cfg h
                (hupd0.trans hu)]
            exact ⟨rfl, rfl⟩
  · intro envE clientE now w applied hv hs hh hr hue happ hver hu
    rw [execute_failover_success_eq envE clientE now st service w applied
      hv hs hh hr hue happ hver]
    rw [rollback_failover_success_eq client _ service
      (clientE.get_configuration 0) (dlookup_dinsert _ _ _) hu]

/-- C4 witness: with the snapshot `cfgA100` stored for `orders` and a client
accepting the write, rollback succeeds and returns the extracted
distribution. -/
theorem C4_rollback_failover_contract_witness :
    rollback_failover clientGood stSnap "orders" =
      ⟨.ok ⟨true, none, some "orders", none, none,
          some ("Successfully rolled back " ++ "orders"
            ++ " to previous configuration"),
          some (extract_weights_from_config cfgA100)⟩, stSnap,
        [("orders", extract_weights_from_config cfgA100)]⟩ :=
  ((C4_rollback_failover_contract clientGood stSnap "orders").2.1 cfgA100
    (by decide)).2 (by decide)

/-- C5 counterexample: the claim as stated is false on the code. The failure
result returned for a bad weight total carries no service field, and the
success result of `rollback_failover` carries no new_config field (the
restored distribution is returned under a configuration key instead). -/
theorem C5_counterexample :
    (execute_failover envAB clientGood 1000 EngineState.initial "orders"
        [("https://a.example.com", 50)]).outcome =
      .ok (failResult "Weights must sum to 100%, got 50%") ∧
    (failResult "Weights must sum to 100%, got 50%").service = none ∧
    (rollback_failover clientGood stSnap "orders").outcome =
      .ok ⟨true, none, some "orders", none, none,
        some "Successfully rolled back orders to previous configuration",
        some (extract_weights_from_config cfgA100)⟩ ∧
    (⟨true, none, some "orders", none, none,
        some "Successfully rolled back orders to previous configuration",
        some (extract_weights_from_config cfgA100)⟩ :
      FailoverResult).new_config = none := by
  exact ⟨rfl, rfl, rfl, rfl⟩

/-- C5 (amended): every failure result of either function carries the error
field and nothing else beyond success; a success result of
`execute_failover` carries service, previous_config, new_config and message
and no error; a success result of `rollback_failover` carries service,
message and the restored distribution in a configuration field, with no
previous_config or new_config; error is present exactly when success is
false. -/
theorem C5_result_field_shape
    (env : Env) (client : ClientBehavior) (now : Int) (st : EngineState)
    (service : String) (targetWeights : WeightDistribution) :
    (∀ r, (execute_failover env client now st service targetWeights).outcome
        = .ok r →
      ((r.success = true → r.error = none ∧ r.service = some service ∧
          r.previous_config.isSome ∧ r.new_config.isSome ∧
          r.message.isSome ∧ r.configuration = none) ∧
       (r.success = false → r.error.isSome ∧ r.service = none ∧
          r.previous_config = none ∧ r.new_config = none ∧
          r.message = none ∧ r.configuration = none))) ∧
    (∀ r, (rollback_failover client st service).outcome = .ok r →
      ((r.success = true → r.error = none ∧ r.service = some service ∧
          r.message.isSome ∧ r.configuration.isSome ∧
          r.previous_config = none ∧ r.new_config = none) ∧
       (r.success = false → r.error.isSome ∧ r.service = none ∧
          r.previous_config = none ∧ r.new_config = none ∧
          r.message = none ∧ r.configuration = none))) := by
  constructor
  · intro r hr
    unfold execute_failover at hr
    repeat'
      first
        | (subst hr; simp [failResult])
        | split at hr
        | split_ifs at hr
        | simp_all [failResult]
  · intro r hr
    unfold rollback_failover at hr
    repeat'
      first
        | (subst hr; simp [failResult])
        | split at hr
        | split_ifs at hr
        | simp_all [failResult]

/-- C5 witness: the field shape evaluated on the concrete bad-total failure
result. -/
theorem C5_result_field_shape_witness :
    (failResult "Weights must sum to 100%, got 50%").error.isSome ∧
    (failResult "Weights must sum to 100%, got 50%").service = none ∧
    (failResult "Weights must sum to 100%, got 50%").previous_config
      = none ∧
    (failResult "Weights must sum to 100%, got 50%").new_config = none ∧
    (failResult "Weights must sum to 100%, got 50%").message = none ∧
    (failResult "Weights must sum to 100%, got 50%").configuration = none :=
  ((C5_result_field_shape envAB clientGood 1000 EngineState.initial "orders"
      [("https://a.example.com", 50)]).1
    (failResult "Weights must sum to 100%, got 50%") (by decide)).2
    (by decide)

/-- C6 counterexample: the claim as stated is false on the code: a call
whose weights sum to 50 but whose key is not a registered backend fails
with the InvalidBackend message of step 1, not with InvalidWeightTotal. -/
theorem C6_counterexample :
    (execute_failover envAB clientGood 1000 EngineState.initial "orders"
        [("https://c.example.com", 50)]).outcome =
      .ok (failResult ("Invalid backend \x27https://c.example.com\x27 "
        ++ "for service \x27orders\x27. Valid backends: "
        ++ "https://a.example.com, https://b.example.com")) ∧
    (execute_failover envAB clientGood 1000 EngineState.initial "orders"
        [("https://c.example.com", 50)]).outcome ≠
      .ok (failResult "Weights must sum to 100%, got 50%") := by
  constructor
  · rfl
  · decide

/-- C6 (amended): every call whose keys are all registered backends of the
service and whose weight values sum to any value other than 100 fails with
InvalidWeightTotal reporting the actual sum, issues no write, and leaves
the state unchanged. -/
theorem C6_invalid_weight_total
    (env : Env) (client : ClientBehavior) (now : Int) (st : EngineState)
    (service : String) (targetWeights : WeightDistribution)
    (hkeys : ∀ p ∈ targetWeights, p.1 ∈ env.get_service_backends service)
    (hsum : (targetWeights.map Prod.snd).sum ≠ 100) :
    execute_failover env client now st service targetWeights =
      ⟨.ok (failResult ("Weights must sum to 100%, got "
          ++ toString ((targetWeights.map Prod.snd).sum) ++ "%")),
        st, []⟩ :=
  execute_failover_badsum_eq env client now st service targetWeights
    (firstInvalidBackend_eq_none hkeys) hsum

/-- C6 witness: a 50-total distribution over a registered backend fails
with the actual sum reported and an empty writes trace. -/
theorem C6_invalid_weight_total_witness :
    execute_failover envAB clientGood 1000 EngineState.initial "orders"
        [("https://a.example.com", 50)] =
      ⟨.ok (failResult ("Weights must sum to 100%, got "
          ++ toString (([("https://a.example.com", (50 : Int))].map
            Prod.snd).sum) ++ "%")),
        EngineState.initial, []⟩ :=
  C6_invalid_weight_total envAB clientGood 1000 EngineState.initial "orders"
    [("https://a.example.com", 50)] (by decide) (by decide)

/-- C7: with a recorded prior successful failover at time t and preflight
checks 1-4 passing, a call at a time less than the cooldown window after t
fails with RateLimited reporting the remaining wait, no write and no state
change; a call once the window has elapsed, with the write accepted and
verification matching, succeeds. -/
theorem C7_rate_limited
    (env : Env) (client : ClientBehavior) (now : Int) (st : EngineState)
    (service : String) (targetWeights : WeightDistribution) (t : Int)
    (applied : List BackendEntry)
    (hkeys : ∀ p ∈ targetWeights, p.1 ∈ env.get_service_backends service)
    (hsum : (targetWeights.map Prod.snd).sum = 100)
    (hhealth : ∀ p ∈ targetWeights, 0 < p.2 →
      client.check_backend_health p.1 = .healthy)
    (hprior : dlookup st.failover_history service = some t) (ht : t ≠ 0) :
    (now - t < env.rate_limit_seconds →
      execute_failover env client now st service targetWeights =
        ⟨.ok (failResult ("Rate limit: Wait "
            ++ toString (env.rate_limit_seconds - (now - t))
            ++ "s before next failover")), st, []⟩) ∧
    (env.rate_limit_seconds ≤ now - t →
      client.update_ok 0 = true →
      (client.get_configuration 1).routingBackends = some applied →
      verify_configuration_match targetWeights applied = true →
      (execute_failover env client now st service targetWeights).outcome =
        .ok ⟨true, none, some service,
          some (extract_weights_from_config (client.get_configuration 0)),
          some targetWeights,
          some ("Successfully failed over \x27" ++ service
            ++ "\x27 traffic. New distribution: "
            ++ format_weight_distribution targetWeights), none⟩) := by
  have hlast : get_last_failover_time st service = t := by
    simp [get_last_failover_time, hprior]
  constructor
  · intro hwin
    rw [execute_failover_ratelimited_eq env client now st service
      targetWeights (firstInvalidBackend_eq_none hkeys) hsum
      (firstUnhealthy_eq_none hhealth) (by rw [hlast]; exact ht)
      (by rw [hlast]; exact hwin), hlast]
  · intro hwin hupd happ hver
    rw [execute_failover_success_eq env client now st service targetWeights
      applied (firstInvalidBackend_eq_none hkeys) hsum
      (firstUnhealthy_eq_none hhealth)
      (rate_ok_of_cooldown (Or.inr (by rw [hlast]; exact hwin)))
      hupd happ hver]

/-- C7 witness: a second call 100 seconds after a success at time 1000 is
rejected with a 200 second wait. -/
theorem C7_rate_limited_witness :
    execute_failover envAB clientGood 1100 stHist "orders" wA70 =
      ⟨.ok (failResult ("Rate limit: Wait "
          ++ toString (envAB.rate_limit_seconds - (1100 - 1000))
          ++ "s before next failover")), stHist, []⟩ :=
  (C7_rate_limited envAB clientGood 1100 stHist "orders" wA70 1000
    (cfgA70.routingBackends.getD []) (by decide) (by decide) (by decide)
    (by decide) (by decide)).1 (by decide)

/-- C8: when all preflight checks pass, the pre-change configuration read is
stored as the rollback snapshot for the service no matter how the rest of
the call goes; when the write is then rejected the call aborts with
ApplyFailed, the snapshot stays stored, the only write in the trace is the
failed apply (no automatic rollback write), and the failover history is
untouched. -/
theorem C8_snapshot_before_apply
    (env : Env) (client : ClientBehavior) (now : Int) (st : EngineState)
    (service : String) (targetWeights : WeightDistribution)
    (hkeys : ∀ p ∈ targetWeights, p.1 ∈ env.get_service_backends service)
    (hsum : (targetWeights.map Prod.snd).sum = 100)
    (hhealth : ∀ p ∈ targetWeights, 0 < p.2 →
      client.check_backend_health p.1 = .healthy)
    (hcooldown : get_last_failover_time st service = 0 ∨
      env.rate_limit_seconds ≤ now - get_last_failover_time st service) :
    dlookup ((execute_failover env client now st service
        targetWeights).state).rollback_configs service =
      some (client.get_configuration 0) ∧
    (client.update_ok 0 = false →
      execute_failover env client now st service targetWeights =
        ⟨.ok (failResult "Failed to update Apollo Router configuration"),
          ⟨st.failover_history,
           dinsert st.rollback_configs service (client.get_configuration 0)⟩,
          [(service, targetWeights)]⟩) := by
  have hv := firstInvalidBackend_eq_none hkeys
  have hh := firstUnhealthy_eq_none hhealth
  have hr := rate_ok_of_cooldown hcooldown
  constructor
  · cases hu : client.update_ok 0 with
    | false =>
        rw [execute_failover_applyfail_eq env client now st service
          targetWeights hv hsum hh hr hu]
        exact dlookup_dinsert _ _ _
    | true =>
        cases happ : (client.get_configuration 1).routingBackends with
        | none =>
            rw [execute_failover_keyerror_eq env client now st service
              targetWeights hv hsum hh hr hu happ]
            exact dlookup_dinsert _ _ _
        | some applied =>
            cases hver : verify_configuration_match targetWeights applied with
            | false =>
                rw [execute_failover_verifyfail_eq env client now st service
                  targetWeights applied hv hsum hh hr hu happ hver]
                exact dlookup_dinsert _ _ _
            | true =>
                rw [execute_failover_success_eq env client now st service
                  targetWeights applied hv hsum hh hr hu happ hver]
                exact dlookup_dinsert _ _ _
  · intro hu
    exact execute_failover_applyfail_eq env client now st service
      targetWeights hv hsum hh hr hu

/-- C8 witness: with a client that rejects the write, the snapshot is stored
and the call aborts with ApplyFailed after exactly one write attempt. -/
theorem C8_snapshot_before_apply_witness :
    dlookup ((execute_failover envAB clientNoWrite 1000 EngineState.initial
        "orders" wA70).state).rollback_configs "orders" =
      some (clientNoWrite.get_configuration 0) ∧
    (clientNoWrite.update_ok 0 = false →
      execute_failover envAB clientNoWrite 1000 EngineState.initial "orders"
          wA70 =
        ⟨.ok (failResult "Failed to update Apollo Router configuration"),
          ⟨EngineState.initial.failover_history,
           dinsert EngineState.initial.rollback_configs "orders"
             (clientNoWrite.get_configuration 0)⟩,
          [("orders", wA70)]⟩) :=
  C8_snapshot_before_apply envAB clientNoWrite 1000 EngineState.initial
    "orders" wA70 (by decide) (by decide) (by decide) (by decide)

/-- C9: weight extraction is total: every configuration without a
routing.backends list, including the error-shaped read-failure object,
extracts to the empty distribution, and a backend entry without a weight
key is read as weight 0; consequently a rollback from an error-shaped
snapshot issues a write whose distribution is empty, whose weights sum to
0 and not 100, rather than refusing. -/
theorem C9_extraction_total :
    (∀ cfg : Config, cfg.routingBackends = none →
      extract_weights_from_config cfg = []) ∧
    (∀ msg, extract_weights_from_config (errorConfig msg) = []) ∧
    (∀ (u : String) (e : Option String),
      extract_weights_from_config ⟨some [⟨u, none⟩], e⟩ = [(u, 0)]) ∧
    (∀ (client : ClientBehavior) (st : EngineState) (service msg : String),
      dlookup st.rollback_configs service = some (errorConfig msg) →
      (rollback_failover client st service).writes = [(service, [])] ∧
      (([] : WeightDistribution).map Prod.snd).sum ≠ 100) := by
  refine ⟨?_, ?_, ?_, ?_⟩
  · intro cfg h
    simp [extract_weights_from_config, h, weightsOfBackends]
  · intro msg; rfl
  · intro u e; rfl
  · intro client st service msg h
    refine ⟨?_, by decide⟩
    cases hu : client.update_ok 0 with
    | false =>
        rw [rollback_failover_applyfail_eq client st service _ h hu]
        exact rfl
    | true =>
        rw [rollback_failover_success_eq client st service _ h hu]
        exact rfl

/-- C9 witness: rollback from the stored error-shaped snapshot writes the
empty distribution. -/
theorem C9_extraction_total_witness :
    (rollback_failover clientGood stBadSnap "orders").writes =
      [("orders", [])] ∧
    (([] : WeightDistribution).map Prod.snd).sum ≠ 100 :=
  C9_extraction_total.2.2.2 clientGood stBadSnap "orders" "boom" (by decide)

/-- C10: `rollback_failover` never mutates the state store: the state after
the call is the input state for every service, stored snapshot and outcome,
and repeating the rollback from the resulting state gives the identical
call result. -/
theorem C10_rollback_state_invariant
    (client : ClientBehavior) (st : EngineState) (service : String) :
    (rollback_failover client st service).state = st ∧
    rollback_failover client ((rollback_failover client st service).state)
        service = rollback_failover client st service := by
  have h1 : (rollback_failover client st service).state = st := by
    cases h : dlookup st.rollback_configs service with
    | none => rw [rollback_failover_none_eq client st service h]
    | some cfg =>
        cases hu : client.update_ok 0 with
        | false =>
            rw [rollback_failover_applyfail_eq client st service cfg h hu]
        | true =>
            rw [rollback_failover_success_eq client st service cfg h hu]
  exact ⟨h1, by rw [h1]⟩

end Failover
